import Mathlib

/-!
Verification of the AI Code Review Assistant backend (GitLab webhook receiver).

Shallow embedding of the parts of the repository that the verified properties
are about:
- `backend/main.py`: the `/webhook/gitlab` handler (`gitlab_webhook`), the
  `/webhook/gitlab/note` handler (`gitlab_note_webhook`), and the in-memory
  duplicate-suppression cache `processed_mrs_cache`.
- `backend/gitlab_client.py`: `update_mr_labels` (score-to-label mapping).
- `backend/database.py`: `save_review` (review persistence with a swallowed
  failure path and the estimated-time-saved computation).
- `backend/reaction_poller.py`: `ReactionPoller.process_note_reactions` and the
  `processed_reactions` set.

Modelling conventions:
- Python floats (scores, wall-clock times, fractional minute rates) are
  modelled as `ℚ`.  `time.time()` values are explicit `ℚ` parameters.
- Python `dict.get` returning `None` is modelled with `Option`.
- External collaborators (GitLab API, the LLM, the SQL session) are modelled by
  an environment record supplying the values their calls would return; the
  side-effecting calls performed by a handler are recorded in an `Effects`
  record so that "no downstream call happens" is a provable statement.
- The de-dup cache `processed_mrs_cache` (a Python dict read with
  `.get(key, 0)`) is modelled as a total map `MRKey → ℚ` with default `0`.
-/

/-! ### Python string primitives (`in` on strings, `startswith`) -/

/-- `charsBeginWith pat s` : the char list `s` starts with `pat`
(Python `str.startswith`). -/
def charsBeginWith : List Char → List Char → Bool
  | [], _ => true
  | _ :: _, [] => false
  | a :: as, b :: bs => a == b && charsBeginWith as bs

/-- `charsOccurIn pat s` : `pat` occurs contiguously inside `s`
(Python `pat in s` on strings). -/
def charsOccurIn (pat : List Char) : List Char → Bool
  | [] => pat.isEmpty
  | c :: rest => charsBeginWith pat (c :: rest) || charsOccurIn pat rest

/-- Python `pat in s` for strings. -/
def strContains (s pat : String) : Bool :=
  charsOccurIn pat.toList s.toList

/-- Python `s.startswith(pat)`. -/
def strStartsWith (s pat : String) : Bool :=
  charsBeginWith pat.toList s.toList

/-! ### Score-to-label mapping (`gitlab_client.py`, `update_mr_labels`) -/

/-- The score-to-label mapping of `GitLabClient.update_mr_labels`
(`backend/gitlab_client.py` lines 322-328):
`score >= 8.0` → `ai-approved`, `score >= 6.0` → `ai-needs-review`,
otherwise `ai-needs-fixes`. -/
def labelForScore (score : ℚ) : String :=
  if score ≥ 8 then "ai-approved"
  else if score ≥ 6 then "ai-needs-review"
  else "ai-needs-fixes"

/-- The AI-owned labels removed before re-labelling
(`ai_labels` in `update_mr_labels`). -/
def aiLabels : List String := ["ai-approved", "ai-needs-review", "ai-needs-fixes"]

/-- `GitLabClient.update_mr_labels` label computation: strip the old AI labels
from the MR's current labels, then append the label chosen by the score. -/
def update_mr_labels (currentLabels : List String) (score : ℚ) : List String :=
  (currentLabels.filter (fun l => !(aiLabels.contains l))) ++ [labelForScore score]

/-! ### Estimated senior time saved (`database.py`, `save_review`) -/

/-- Base review time in minutes from the number of changed lines
(`save_review`, `backend/database.py` lines 105-112).  Python float
arithmetic is modelled over `ℚ`. -/
def baseTime (linesChanged : ℕ) : ℚ :=
  if linesChanged ≤ 50 then 5 + (linesChanged : ℚ) * (1 / 10)
  else if linesChanged ≤ 200 then 10 + ((linesChanged : ℚ) - 50) * (13 / 100)
  else if linesChanged ≤ 500 then 30 + ((linesChanged : ℚ) - 200) * (1 / 10)
  else 60 + min (((linesChanged : ℚ) - 500) * (6 / 100)) 30

/-- Additional minutes for issues found (`save_review` line 118):
critical 20, medium 10, low 3. -/
def issueTime (critical medium low : ℕ) : ℕ :=
  critical * 20 + medium * 10 + low * 3

/-- `estimated_time` of `save_review` (`backend/database.py` lines 121-125):
`int(base_time + issue_time)` (truncation; the sum is nonnegative, so
truncation equals floor), capped at 120 and floored at 5. -/
def estimatedTimeSaved (linesChanged critical medium low : ℕ) : ℤ :=
  let t : ℤ := ⌊baseTime linesChanged + (issueTime critical medium low : ℚ)⌋
  max (min t 120) 5

/-! ### Theorems for the label mapping and time-saved bounds -/

/-- C2 counterexample: the claim as stated maps every `score < 8.0` to the
"needs fixes" label, but the code maps score 7 (which is `< 8`) to
`ai-needs-review`, not `ai-needs-fixes`. -/
theorem score_label_claim_cex :
    (7 : ℚ) < 8 ∧ labelForScore 7 ≠ "ai-needs-fixes" ∧
      labelForScore 7 = "ai-needs-review" := by
  refine ⟨by norm_num, ?_, ?_⟩ <;>
    unfold labelForScore <;> rw [if_neg (by norm_num), if_pos (by norm_num)] <;> decide

/-- C2 (amended): the score-to-label mapping is a pure function of the score:
`score ≥ 8` → `ai-approved`; `6 ≤ score < 8` → `ai-needs-review`;
`score < 6` → `ai-needs-fixes`; the three ranges are a disjoint, total
partition (of all scores, in particular of `[0,10]`). -/
theorem score_label_partition (s : ℚ) :
    (8 ≤ s → labelForScore s = "ai-approved") ∧
    (6 ≤ s ∧ s < 8 → labelForScore s = "ai-needs-review") ∧
    (s < 6 → labelForScore s = "ai-needs-fixes") ∧
    (labelForScore s = "ai-approved" ∨ labelForScore s = "ai-needs-review" ∨
      labelForScore s = "ai-needs-fixes") := by
  unfold labelForScore
  refine ⟨fun h => ?_, fun h => ?_, fun h => ?_, ?_⟩
  · rw [if_pos (by linarith)]
  · rw [if_neg (by simpa using not_le.mpr h.2), if_pos (by linarith [h.1])]
  · rw [if_neg (by simpa using not_le.mpr (by linarith)),
      if_neg (by simpa using not_le.mpr h)]
  · by_cases h8 : 8 ≤ s
    · exact Or.inl (by rw [if_pos (by simpa using h8)])
    · by_cases h6 : 6 ≤ s
      · exact Or.inr (Or.inl (by
          rw [if_neg (by simpa using h8), if_pos (by simpa using h6)]))
      · exact Or.inr (Or.inr (by
          rw [if_neg (by simpa using h8), if_neg (by simpa using h6)]))

/-- Witness for `score_label_partition` at concrete scores 9, 7 and 3. -/
theorem score_label_partition_witness :
    labelForScore 9 = "ai-approved" ∧ labelForScore 7 = "ai-needs-review" ∧
      labelForScore 3 = "ai-needs-fixes" :=
  ⟨(score_label_partition 9).1 (by norm_num),
   (score_label_partition 7).2.1 ⟨by norm_num, by norm_num⟩,
   (score_label_partition 3).2.2.1 (by norm_num)⟩

/-! ### Data model for the webhook path (`backend/main.py`, `backend/database.py`) -/

/-- One issue in the structured LLM result (spec section 6: severity, type,
description, suggestion, optional file/line/snippet).  Only the length of the
issue list is inspected on the verified paths. -/
structure Issue where
  severity : String
  issue_type : String
  description : String
  suggestion : String
  file_path : Option String
  line : Option Nat
  code_snippet : Option String
deriving DecidableEq

/-- The structured analysis result dictionary produced by the code analyzer
(`analysis_result` in `main.py`).  `lines_changed` is the key written into the
dictionary by `post_review_comments` before `save_review` reads it. -/
structure AnalysisResult where
  score : ℚ
  issues : List Issue
  critical_count : ℕ
  medium_count : ℕ
  low_count : ℕ
  lines_changed : ℕ
  summary : String
deriving DecidableEq

/-- `payload['object_attributes']` of a merge_request event, with the fields
read by `gitlab_webhook` and `save_review` (`dict.get` misses are `none`). -/
structure MRAttributes where
  iid : Option ℕ
  action : Option String
  project_id : Option ℕ
  source_project_name : Option String
  author_username : Option String
deriving DecidableEq

/-- A merge_request webhook payload as read by `gitlab_webhook`:
`object_kind`, `object_attributes`, and `payload['project']['id']`. -/
structure Payload where
  objectKind : String
  objectAttributes : MRAttributes
  projectId : Option ℕ
deriving DecidableEq

/-- One entry of the MR change list; only the `diff` key is read
(`change.get('diff', '')` in `post_review_comments`). -/
structure Change where
  diff : String
deriving DecidableEq

/-- A row of the `code_reviews` table (`CodeReviewDB` in `backend/database.py`)
as written by `save_review`. -/
structure Review where
  merge_request_id : Option ℕ
  project_id : Option ℕ
  project_name : String
  author : String
  analysis_time : ℕ
  score : ℚ
  critical_issues : ℕ
  medium_issues : ℕ
  low_issues : ℕ
  status : String
  senior_time_saved : ℤ
  summary : String
deriving DecidableEq

/-- The `CodeReviewDB` row built by `save_review` (`backend/database.py`
lines 127-141).  `analysis_result.get('score', 0)` always finds the `score`
key on this path, so `score` is a required field here. -/
def mkReview (mr : MRAttributes) (ar : AnalysisResult) : Review :=
  { merge_request_id := mr.iid
    project_id := mr.project_id
    project_name := mr.source_project_name.getD "Unknown"
    author := mr.author_username.getD "Unknown"
    analysis_time := 30
    score := ar.score
    critical_issues := ar.critical_count
    medium_issues := ar.medium_count
    low_issues := ar.low_count
    status := if ar.score < 7 then "needs_review" else "approved"
    senior_time_saved :=
      estimatedTimeSaved ar.lines_changed ar.critical_count ar.medium_count ar.low_count
    summary := ar.summary }

/-- `save_review` (`backend/database.py` lines 85-151) acting on the list of
stored rows.  `dbInit` models `SessionLocal` being set; `commitFails` models
the session raising on `add`/`commit`.  A failure is caught inside the
function: the transaction is rolled back (the store is unchanged) and no
exception escapes (the function totally returns the resulting store). -/
def save_review (dbInit commitFails : Bool) (mr : MRAttributes) (ar : AnalysisResult)
    (reviews : List Review) : List Review :=
  if !dbInit then reviews
  else if commitFails then reviews
  else reviews ++ [mkReview mr ar]

/-- Lines changed as counted by `post_review_comments`
(`backend/gitlab_client.py` lines 290-296): over every change, the number of
lines of its diff starting with `+` or `-`. -/
def countChangedLines (changes : List Change) : ℕ :=
  (changes.map (fun c =>
    ((c.diff.splitOn "\n").filter
      (fun l => strStartsWith l "+" || strStartsWith l "-")).length)).sum

/-- The action filter of `gitlab_webhook` (`main.py` line 131):
`action in ['open', 'update', 'reopen']` where `action` may be `None`. -/
def actionAllowed (action : Option String) : Bool :=
  action == some "open" || action == some "update" || action == some "reopen"

/-- Key of the duplicate-suppression cache: `(project_id, mr_iid)`
(`mr_key` in `gitlab_webhook`). -/
abbrev MRKey := Option ℕ × Option ℕ

/-- `processed_mrs_cache[mr_key] = current_time` (`main.py` line 147); the
cache is a dict read with default `0`, modelled as a total map. -/
def cacheSet (cache : MRKey → ℚ) (k : MRKey) (t : ℚ) : MRKey → ℚ :=
  fun k2 => if k2 = k then t else cache k2

/-- `DUPLICATE_THRESHOLD = 60` seconds (`main.py` line 33). -/
def DUPLICATE_THRESHOLD : ℚ := 60

/-- Static configuration read by the handlers: `settings.WEBHOOK_SECRET`
(an optional string), `settings.AUTO_LABEL_MR`, and whether the database was
initialized (`SessionLocal` set). -/
structure Config where
  webhookSecret : Option String
  autoLabel : Bool
  dbInit : Bool

/-- Values returned by the external collaborators during one webhook request:
the MR change list, its current labels, the analyzer result, and whether the
database commit raises. -/
structure Env where
  changes : List Change
  mrLabels : List String
  analysis : AnalysisResult
  saveFails : Bool

/-- Mutable process state touched by `gitlab_webhook`: the de-dup cache and
the stored review rows. -/
structure ServerState where
  cache : MRKey → ℚ
  reviews : List Review

/-- Downstream calls performed during one webhook request.  `labelsSet`
records the label list written by `update_mr_labels` when it is invoked. -/
structure Effects where
  fetchedMR : Bool
  fetchedChanges : Bool
  calledLLM : Bool
  postedComment : Bool
  labelsSet : Option (List String)
  attemptedSave : Bool
deriving DecidableEq

/-- No downstream call at all. -/
def noEffects : Effects :=
  { fetchedMR := false, fetchedChanges := false, calledLLM := false,
    postedComment := false, labelsSet := none, attemptedSave := false }

/-- Responses of the two webhook endpoints, one constructor per `return` /
`raise` site in `gitlab_webhook` and `gitlab_note_webhook`. -/
inductive Response where
  /-- `HTTPException(status_code=401)` on a bad `X-Gitlab-Token`. -/
  | unauthorized
  /-- `{"status": "ignored", "reason": "Not a merge request event"}` -/
  | ignoredNotMergeRequest
  /-- `{"status": "ignored", "reason": f"Action ... not processed"}` -/
  | ignoredAction (action : Option String)
  /-- `{"status": "skipped", "reason": "Duplicate webhook within threshold"}` -/
  | skippedDuplicate
  /-- `{"status": "success", "message": "No changes to analyze"}` -/
  | successNoChanges
  /-- `{"status": "success", "message": "Code review completed", ...}` -/
  | successReview (score : ℚ) (issuesFound : ℕ)
  /-- `{"status": "ignored", "reason": "Not a note event"}` -/
  | ignoredNotNote
  /-- `{"status": "ignored", "reason": "Not a MR comment"}` -/
  | ignoredNotMRComment
  /-- `{"status": "ignored", "reason": "No reactions yet"}` -/
  | ignoredNoReactions
  /-- `{"status": "ignored", "reason": "Not an AI comment"}` -/
  | ignoredNotAIComment
  /-- `{"status": "success", "message": "Feedback recorded for AI learning"}` -/
  | successFeedback
  /-- `{"status": "ignored", "reason": "No thumbs reactions found"}` -/
  | ignoredNoThumbs
deriving DecidableEq

/-- The `/webhook/gitlab` handler (`gitlab_webhook`, `backend/main.py`
lines 101-200), straight-line in the order of the source: token check,
`object_kind` filter, action filter, duplicate gate (read of
`processed_mrs_cache` with default 0, threshold comparison, cache write),
fetch of the MR and its changes, empty-changes short-circuit, LLM analysis
(with the `lines_changed` enrichment done inside `post_review_comments`),
comment posting, optional label update, and `save_review`. -/
def gitlab_webhook (cfg : Config) (env : Env) (xGitlabToken : Option String)
    (payload : Payload) (currentTime : ℚ) (st : ServerState) :
    Response × ServerState × Effects :=
  if xGitlabToken ≠ cfg.webhookSecret then (.unauthorized, st, noEffects)
  else if payload.objectKind ≠ "merge_request" then (.ignoredNotMergeRequest, st, noEffects)
  else
    let mrData := payload.objectAttributes
    if !actionAllowed mrData.action then (.ignoredAction mrData.action, st, noEffects)
    else
      let mrKey : MRKey := (payload.projectId, mrData.iid)
      let lastProcessed := st.cache mrKey
      if currentTime - lastProcessed < DUPLICATE_THRESHOLD then
        (.skippedDuplicate, st, noEffects)
      else
        let st1 : ServerState := { st with cache := cacheSet st.cache mrKey currentTime }
        let changes := env.changes
        let effFetch : Effects := { noEffects with fetchedMR := true, fetchedChanges := true }
        if changes.isEmpty then (.successNoChanges, st1, effFetch)
        else
          let analysisResult :=
            { env.analysis with lines_changed := countChangedLines env.changes }
          let effPost := { effFetch with calledLLM := true, postedComment := true }
          let effLabel :=
            if cfg.autoLabel then
              { effPost with labelsSet := some (update_mr_labels env.mrLabels analysisResult.score) }
            else effPost
          let reviews2 := save_review cfg.dbInit env.saveFails mrData analysisResult st1.reviews
          (.successReview analysisResult.score analysisResult.issues.length,
            { st1 with reviews := reviews2 },
            { effLabel with attemptedSave := true })

/-! ### Feedback records and the note webhook (`backend/main.py` lines 203-307) -/

/-- A `Feedback` record as constructed by the note webhook and the reaction
poller (`backend/feedback.py` model: comment id, MR id, project id, feedback
type, reason, reviewer name, snippet of the AI comment). -/
structure Feedback where
  comment_id : String
  mr_id : Option ℕ
  project_id : Option ℕ
  feedback_type : String
  reason : String
  senior_name : String
  ai_comment : String
deriving DecidableEq

/-- Modelled from the spec: `learning_system.add_feedback` of
`backend/feedback.py`, which is not part of the analyzed sources.  The spec's
data model states that feedback records are "Created when a reaction or
explicit feedback submission is observed; append-only", so adding a feedback
appends the record to the store. -/
def add_feedback (store : List Feedback) (f : Feedback) : List Feedback :=
  store ++ [f]

/-- Python `str(x)` on an optional integer (`str(note_id)` where `note_id`
may be `None`). -/
def pyStrOfOptNat : Option ℕ → String
  | some n => toString n
  | none => "None"

/-- The AI-comment marker test of the note webhook (`main.py` line 251):
`"🤖" in note_body or "AI Review" in note_body`. -/
def isAiNoteComment (noteBody : String) : Bool :=
  strContains noteBody "🤖" || strContains noteBody "AI Review"

/-- `payload['merge_request']` of a note event; only `iid` is read. -/
structure NoteMRData where
  iid : Option ℕ
deriving DecidableEq

/-- A note webhook payload as read by `gitlab_note_webhook`: `object_kind`,
`object_attributes.id`/`.note`, `user.name`, `merge_request` (absent or empty
dict modelled as `none`) and `project_id`. -/
structure NotePayload where
  objectKind : String
  noteId : Option ℕ
  noteBody : String
  userName : Option String
  mrData : Option NoteMRData
  projectId : Option ℕ
deriving DecidableEq

/-- The negative `Feedback` built by the note webhook (`main.py`
lines 263-271). -/
def noteNegFeedback (p : NotePayload) (mrd : NoteMRData) : Feedback :=
  { comment_id := pyStrOfOptNat p.noteId
    mr_id := mrd.iid
    project_id := p.projectId
    feedback_type := "negative"
    reason := "Senior marked AI comment as incorrect"
    senior_name := p.userName.getD "Unknown"
    ai_comment := p.noteBody.take 500 }

/-- The positive `Feedback` built by the note webhook (`main.py`
lines 279-287). -/
def notePosFeedback (p : NotePayload) (mrd : NoteMRData) : Feedback :=
  { comment_id := pyStrOfOptNat p.noteId
    mr_id := mrd.iid
    project_id := p.projectId
    feedback_type := "positive"
    reason := "Senior approved AI comment"
    senior_name := p.userName.getD "Unknown"
    ai_comment := p.noteBody.take 500 }

/-- The `/webhook/gitlab/note` handler (`gitlab_note_webhook`,
`backend/main.py` lines 203-307).  `reactions` is what
`gitlab_client.get_note_reactions` returns when it is called; the final
`Bool` of the result records whether that downstream call happened.
`procSet` is the poller's `processed_reactions` set, passed through to make
explicit that this handler neither consults nor updates it. -/
def gitlab_note_webhook (cfg : Config) (reactions : List String)
    (xGitlabToken : Option String) (p : NotePayload)
    (procSet : List String) (fbs : List Feedback) :
    Response × List String × List Feedback × Bool :=
  if xGitlabToken ≠ cfg.webhookSecret then (.unauthorized, procSet, fbs, false)
  else if p.objectKind ≠ "note" then (.ignoredNotNote, procSet, fbs, false)
  else
    match p.mrData with
    | none => (.ignoredNotMRComment, procSet, fbs, false)
    | some mrd =>
      if reactions.isEmpty then (.ignoredNoReactions, procSet, fbs, true)
      else if !isAiNoteComment p.noteBody then (.ignoredNotAIComment, procSet, fbs, true)
      else
        let hasDown := reactions.contains "thumbsdown" || reactions.contains "-1"
        let fbs1 := if hasDown then add_feedback fbs (noteNegFeedback p mrd) else fbs
        let hasUp := reactions.contains "thumbsup" || reactions.contains "+1"
        let fbs2 := if hasUp then add_feedback fbs1 (notePosFeedback p mrd) else fbs1
        if hasDown || hasUp then (.successFeedback, procSet, fbs2, true)
        else (.ignoredNoThumbs, procSet, fbs2, true)

/-! ### Reaction poller (`backend/reaction_poller.py`) -/

/-- One AI comment observed by a polling cycle, with the reaction list that
`get_note_reactions` returns for it. -/
structure NoteObs where
  noteId : ℕ
  noteBody : String
  authorName : String
  projectId : Option ℕ
  mrIid : Option ℕ
  reactions : List String
deriving DecidableEq

/-- Mutable poller state: the `processed_reactions` set of
"note-id:reaction-kind" strings, and the feedback store written through
`learning_system.add_feedback`. -/
structure PollerState where
  processed : List String
  feedbacks : List Feedback
deriving DecidableEq

/-- The `f"{note_id}:thumbsdown"` / `f"{note_id}:thumbsup"` key strings. -/
def reactKey (noteId : ℕ) (kind : String) : String :=
  toString noteId ++ ":" ++ kind

/-- The negative `Feedback` built by the poller (`reaction_poller.py`
lines 125-133). -/
def pollNegFeedback (o : NoteObs) : Feedback :=
  { comment_id := toString o.noteId
    mr_id := o.mrIid
    project_id := o.projectId
    feedback_type := "negative"
    reason := "Senior marked AI comment as incorrect (via polling)"
    senior_name := o.authorName
    ai_comment := o.noteBody.take 500 }

/-- The positive `Feedback` built by the poller (`reaction_poller.py`
lines 144-152). -/
def pollPosFeedback (o : NoteObs) : Feedback :=
  { comment_id := toString o.noteId
    mr_id := o.mrIid
    project_id := o.projectId
    feedback_type := "positive"
    reason := "Senior approved AI comment (via polling)"
    senior_name := o.authorName
    ai_comment := o.noteBody.take 500 }

/-- One reaction block of `process_note_reactions`: if the reaction kind is
present (`cond`) and its key is not yet in `processed_reactions`
(Python `if key not in self.processed_reactions`, written here with the
branches flipped), emit the feedback and mark the key processed; otherwise do
nothing. -/
def emitIfNew (cond : Bool) (key : String) (fb : Feedback) (st : PollerState) :
    PollerState :=
  if cond then
    if key ∈ st.processed then st
    else
      { processed := st.processed ++ [key]
        feedbacks := add_feedback st.feedbacks fb }
  else st

/-- `ReactionPoller.process_note_reactions` (`backend/reaction_poller.py`
lines 104-159): return unchanged when the comment has no reactions, then run
the thumbsdown block followed by the thumbsup block. -/
def process_note_reactions (o : NoteObs) (st : PollerState) : PollerState :=
  if o.reactions.isEmpty then st
  else
    let st1 := emitIfNew
      (o.reactions.contains "thumbsdown" || o.reactions.contains "-1")
      (reactKey o.noteId "thumbsdown") (pollNegFeedback o) st
    emitIfNew
      (o.reactions.contains "thumbsup" || o.reactions.contains "+1")
      (reactKey o.noteId "thumbsup") (pollPosFeedback o) st1

/-- A sequence of polling observations applied in order: the comments
inspected across one or many polling cycles. -/
def runPoller (obs : List NoteObs) (st : PollerState) : PollerState :=
  obs.foldl (fun s o => process_note_reactions o s) st

/-- The "note-id:reaction-kind" key of a feedback record as the poller would
form it: every feedback the poller emits with `feedback_type = "negative"`
comes from the thumbsdown block, and every other one from the thumbsup
block. -/
def fbKey (f : Feedback) : String :=
  f.comment_id ++ ":" ++ (if f.feedback_type = "negative" then "thumbsdown" else "thumbsup")

/-- Number of feedback records in a store for a given
"note-id:reaction-kind" key. -/
def countKey (fs : List Feedback) (k : String) : ℕ :=
  fs.countP (fun f => fbKey f == k)

/-! ### Theorem for the stored time-saved bounds (C8) -/

/-- C8: every row persisted by `save_review` is either not stored at all or is
`mkReview mr ar`, and the stored `senior_time_saved` always lies in the closed
interval `[5, 120]` minutes, for all inputs. -/
theorem time_saved_bounds (dbInit commitFails : Bool) (mr : MRAttributes)
    (ar : AnalysisResult) (reviews : List Review) :
    (save_review dbInit commitFails mr ar reviews = reviews ∨
      save_review dbInit commitFails mr ar reviews = reviews ++ [mkReview mr ar]) ∧
    5 ≤ (mkReview mr ar).senior_time_saved ∧
      (mkReview mr ar).senior_time_saved ≤ 120 := by
  refine ⟨?_, ?_, ?_⟩
  · unfold save_review
    split
    · exact Or.inl rfl
    · split
      · exact Or.inl rfl
      · exact Or.inr rfl
  · exact le_max_right _ _
  · exact max_le (le_trans (min_le_right _ _) le_rfl) (by norm_num)

/-! ### Theorems for the merge_request webhook path (C1, C3, C4, C5, C7, C9) -/

/-- C1: the duplicate-suppression gate.  For a well-formed merge_request event
with a correct token, if the cache records timestamp `t1` for the event's
`(project id, MR iid)` key and the event arrives at `t2` with
`t2 - t1 < DUPLICATE_THRESHOLD`, the handler returns the skipped response,
the state is untouched and no downstream call happens; if at least the
threshold has elapsed, the key's timestamp is overwritten with `t2`, the
event is not skipped, and processing proceeds (the MR fetch happens). -/
theorem dedup_gate_spec (cfg : Config) (env : Env) (payload : Payload)
    (st : ServerState) (t1 t2 : ℚ)
    (hkind : payload.objectKind = "merge_request")
    (hact : actionAllowed payload.objectAttributes.action = true)
    (hrec : st.cache (payload.projectId, payload.objectAttributes.iid) = t1) :
    (t2 - t1 < DUPLICATE_THRESHOLD →
      gitlab_webhook cfg env cfg.webhookSecret payload t2 st =
        (.skippedDuplicate, st, noEffects)) ∧
    (DUPLICATE_THRESHOLD ≤ t2 - t1 →
      (gitlab_webhook cfg env cfg.webhookSecret payload t2 st).2.1.cache
          (payload.projectId, payload.objectAttributes.iid) = t2 ∧
      (gitlab_webhook cfg env cfg.webhookSecret payload t2 st).1 ≠ .skippedDuplicate ∧
      (gitlab_webhook cfg env cfg.webhookSecret payload t2 st).2.2.fetchedMR = true) := by
  constructor
  · intro hlt
    unfold gitlab_webhook
    simp [hkind, hact, hrec, hlt]
  · intro hge
    unfold gitlab_webhook
    by_cases hc : env.changes.isEmpty <;> by_cases hl : cfg.autoLabel <;>
      simp [hkind, hact, hrec, not_lt.mpr hge, hc, hl, cacheSet]

/-- Witness for `dedup_gate_spec`: a concrete second event 100 seconds after
the recorded timestamp passes the gate and refreshes the cache entry. -/
theorem dedup_gate_spec_witness :
    (gitlab_webhook
        { webhookSecret := some "s", autoLabel := true, dbInit := true }
        { changes := [{ diff := "+x" }], mrLabels := [],
          analysis := { score := 9, issues := [], critical_count := 0,
                        medium_count := 0, low_count := 0, lines_changed := 0,
                        summary := "ok" },
          saveFails := false }
        (some "s")
        { objectKind := "merge_request",
          objectAttributes := { iid := some 1, action := some "open",
                                project_id := some 1,
                                source_project_name := none,
                                author_username := none },
          projectId := some 1 }
        100 { cache := fun _ => 0, reviews := [] }).2.1.cache (some 1, some 1) = 100 ∧
    (gitlab_webhook
        { webhookSecret := some "s", autoLabel := true, dbInit := true }
        { changes := [{ diff := "+x" }], mrLabels := [],
          analysis := { score := 9, issues := [], critical_count := 0,
                        medium_count := 0, low_count := 0, lines_changed := 0,
                        summary := "ok" },
          saveFails := false }
        (some "s")
        { objectKind := "merge_request",
          objectAttributes := { iid := some 1, action := some "open",
                                project_id := some 1,
                                source_project_name := none,
                                author_username := none },
          projectId := some 1 }
        100 { cache := fun _ => 0, reviews := [] }).1 ≠ .skippedDuplicate := by
  have h := (dedup_gate_spec
    { webhookSecret := some "s", autoLabel := true, dbInit := true }
    { changes := [{ diff := "+x" }], mrLabels := [],
      analysis := { score := 9, issues := [], critical_count := 0,
                    medium_count := 0, low_count := 0, lines_changed := 0,
                    summary := "ok" },
      saveFails := false }
    { objectKind := "merge_request",
      objectAttributes := { iid := some 1, action := some "open",
                            project_id := some 1,
                            source_project_name := none,
                            author_username := none },
      projectId := some 1 }
    { cache := fun _ => 0, reviews := [] } 0 100 rfl rfl rfl).2
    (by norm_num [DUPLICATE_THRESHOLD])
  exact ⟨h.1, h.2.1⟩

/-- C3: every webhook request (on either endpoint) whose shared-secret header
does not equal the configured secret gets the 401 response, leaves the server
state, the processed-reaction set and the feedback store untouched, and
performs zero downstream calls (no fetch, no LLM call, no comment, no label
update, no save, and no reaction fetch on the note path). -/
theorem wrong_token_rejected (cfg : Config) (env : Env) (token : Option String)
    (payload : Payload) (t : ℚ) (st : ServerState) (reactions : List String)
    (np : NotePayload) (procSet : List String) (fbs : List Feedback)
    (h : token ≠ cfg.webhookSecret) :
    gitlab_webhook cfg env token payload t st = (.unauthorized, st, noEffects) ∧
    gitlab_note_webhook cfg reactions token np procSet fbs =
      (.unauthorized, procSet, fbs, false) := by
  unfold gitlab_webhook gitlab_note_webhook
  rw [if_pos h, if_pos h]
  exact ⟨rfl, rfl⟩

/-- Witness for `wrong_token_rejected`: a request carrying token "wrong"
against configured secret "s" is rejected with no effects. -/
theorem wrong_token_rejected_witness :
    gitlab_webhook
      { webhookSecret := some "s", autoLabel := true, dbInit := true }
      { changes := [], mrLabels := [],
        analysis := { score := 9, issues := [], critical_count := 0,
                      medium_count := 0, low_count := 0, lines_changed := 0,
                      summary := "ok" },
        saveFails := false }
      (some "wrong")
      { objectKind := "merge_request",
        objectAttributes := { iid := some 1, action := some "open",
                              project_id := some 1,
                              source_project_name := none,
                              author_username := none },
        projectId := some 1 }
      0 { cache := fun _ => 0, reviews := [] } =
      (.unauthorized, { cache := fun _ => 0, reviews := [] }, noEffects) ∧
    gitlab_note_webhook
      { webhookSecret := some "s", autoLabel := true, dbInit := true }
      ["thumbsup"] (some "wrong")
      { objectKind := "note", noteId := some 7, noteBody := "AI Review: ok",
        userName := some "U", mrData := some { iid := some 2 },
        projectId := some 1 }
      [] [] = (.unauthorized, [], [], false) :=
  wrong_token_rejected
    { webhookSecret := some "s", autoLabel := true, dbInit := true }
    { changes := [], mrLabels := [],
      analysis := { score := 9, issues := [], critical_count := 0,
                    medium_count := 0, low_count := 0, lines_changed := 0,
                    summary := "ok" },
      saveFails := false }
    (some "wrong")
    { objectKind := "merge_request",
      objectAttributes := { iid := some 1, action := some "open",
                            project_id := some 1,
                            source_project_name := none,
                            author_username := none },
      projectId := some 1 }
    0 { cache := fun _ => 0, reviews := [] } ["thumbsup"]
    { objectKind := "note", noteId := some 7, noteBody := "AI Review: ok",
      userName := some "U", mrData := some { iid := some 2 },
      projectId := some 1 }
    [] [] (by decide)

/-- C5: a merge_request event whose action is not one of open/update/reopen
(for example "close") is ignored whatever the rest of the payload holds: the
ignored response is returned, the state (de-dup cache and stored reviews) is
unchanged, and no downstream call happens. -/
theorem close_action_ignored (cfg : Config) (env : Env) (payload : Payload)
    (t : ℚ) (st : ServerState)
    (hkind : payload.objectKind = "merge_request")
    (hact : actionAllowed payload.objectAttributes.action = false) :
    gitlab_webhook cfg env cfg.webhookSecret payload t st =
      (.ignoredAction payload.objectAttributes.action, st, noEffects) := by
  unfold gitlab_webhook
  simp [hkind, hact]

/-- Witness for `close_action_ignored`: a concrete "close" event is ignored
with the state returned unchanged and no effects. -/
theorem close_action_ignored_witness :
    gitlab_webhook
      { webhookSecret := some "s", autoLabel := true, dbInit := true }
      { changes := [{ diff := "+x" }], mrLabels := [],
        analysis := { score := 9, issues := [], critical_count := 0,
                      medium_count := 0, low_count := 0, lines_changed := 0,
                      summary := "ok" },
        saveFails := false }
      (some "s")
      { objectKind := "merge_request",
        objectAttributes := { iid := some 1, action := some "close",
                              project_id := some 1,
                              source_project_name := none,
                              author_username := none },
        projectId := some 1 }
      0 { cache := fun _ => 0, reviews := [] } =
      (.ignoredAction (some "close"), { cache := fun _ => 0, reviews := [] },
        noEffects) :=
  close_action_ignored
    { webhookSecret := some "s", autoLabel := true, dbInit := true }
    { changes := [{ diff := "+x" }], mrLabels := [],
      analysis := { score := 9, issues := [], critical_count := 0,
                    medium_count := 0, low_count := 0, lines_changed := 0,
                    summary := "ok" },
      saveFails := false }
    { objectKind := "merge_request",
      objectAttributes := { iid := some 1, action := some "close",
                            project_id := some 1,
                            source_project_name := none,
                            author_username := none },
      projectId := some 1 }
    0 { cache := fun _ => 0, reviews := [] } rfl rfl

/-- C4: a merge_request event that passes the token check, the event filter
and the duplicate gate but whose fetched change list is empty short-circuits
to the "No changes to analyze" success response.  The cache write has already
happened, the MR and its changes were fetched, and nothing else runs: no LLM
call, no comment, no label update, no save, stored reviews unchanged. -/
theorem empty_changes_short_circuit (cfg : Config) (env : Env)
    (payload : Payload) (t : ℚ) (st : ServerState)
    (hkind : payload.objectKind = "merge_request")
    (hact : actionAllowed payload.objectAttributes.action = true)
    (hgate : DUPLICATE_THRESHOLD ≤
      t - st.cache (payload.projectId, payload.objectAttributes.iid))
    (hempty : env.changes = []) :
    gitlab_webhook cfg env cfg.webhookSecret payload t st =
      (.successNoChanges,
        { st with cache :=
            cacheSet st.cache (payload.projectId, payload.objectAttributes.iid) t },
        { noEffects with fetchedMR := true, fetchedChanges := true }) := by
  unfold gitlab_webhook
  simp [hkind, hact, not_lt.mpr hgate, hempty, noEffects]

/-- Witness for `empty_changes_short_circuit` on a concrete event whose MR has
an empty change list. -/
theorem empty_changes_short_circuit_witness :
    gitlab_webhook
      { webhookSecret := some "s", autoLabel := true, dbInit := true }
      { changes := [], mrLabels := [],
        analysis := { score := 9, issues := [], critical_count := 0,
                      medium_count := 0, low_count := 0, lines_changed := 0,
                      summary := "ok" },
        saveFails := false }
      (some "s")
      { objectKind := "merge_request",
        objectAttributes := { iid := some 1, action := some "open",
                              project_id := some 1,
                              source_project_name := none,
                              author_username := none },
        projectId := some 1 }
      100 { cache := fun _ => 0, reviews := [] } =
      (.successNoChanges,
        { cache := cacheSet (fun _ => 0) (some 1, some 1) 100, reviews := [] },
        { noEffects with fetchedMR := true, fetchedChanges := true }) :=
  empty_changes_short_circuit
    { webhookSecret := some "s", autoLabel := true, dbInit := true }
    { changes := [], mrLabels := [],
      analysis := { score := 9, issues := [], critical_count := 0,
                    medium_count := 0, low_count := 0, lines_changed := 0,
                    summary := "ok" },
      saveFails := false }
    { objectKind := "merge_request",
      objectAttributes := { iid := some 1, action := some "open",
                            project_id := some 1,
                            source_project_name := none,
                            author_username := none },
      projectId := some 1 }
    100 { cache := fun _ => 0, reviews := [] } rfl rfl
    (by norm_num [DUPLICATE_THRESHOLD]) rfl

/-- C7: a failure while persisting the review is caught inside `save_review`
(transaction rolled back: the stored rows are unchanged and nothing is
re-raised), so for a fully processed event the webhook caller still gets the
success response: a commit failure never converts a completed review into an
error response. -/
theorem save_failure_swallowed (cfg : Config) (env : Env) (payload : Payload)
    (t : ℚ) (st : ServerState)
    (hkind : payload.objectKind = "merge_request")
    (hact : actionAllowed payload.objectAttributes.action = true)
    (hgate : DUPLICATE_THRESHOLD ≤
      t - st.cache (payload.projectId, payload.objectAttributes.iid))
    (hne : env.changes ≠ []) :
    (∀ mr ar rs, save_review cfg.dbInit true mr ar rs = rs) ∧
    (gitlab_webhook cfg { env with saveFails := true } cfg.webhookSecret
        payload t st).1 =
      .successReview env.analysis.score env.analysis.issues.length ∧
    (gitlab_webhook cfg { env with saveFails := true } cfg.webhookSecret
        payload t st).2.1.reviews = st.reviews := by
  have hsave : ∀ mr ar rs, save_review cfg.dbInit true mr ar rs = rs := by
    intro mr ar rs
    cases cfg.dbInit <;> simp [save_review]
  have hc : env.changes.isEmpty = false := by
    cases h : env.changes with
    | nil => exact absurd h hne
    | cons a l => rfl
  refine ⟨hsave, ?_, ?_⟩ <;>
    unfold gitlab_webhook <;>
    by_cases hl : cfg.autoLabel <;>
    simp [hkind, hact, not_lt.mpr hgate, hc, hl, hsave]

/-- Witness for `save_failure_swallowed`: with a failing database commit, a
concrete processed event still returns the success response and the review
store stays empty. -/
theorem save_failure_swallowed_witness :
    (gitlab_webhook
        { webhookSecret := some "s", autoLabel := true, dbInit := true }
        { changes := [{ diff := "+x" }], mrLabels := [],
          analysis := { score := 9, issues := [], critical_count := 0,
                        medium_count := 0, low_count := 0, lines_changed := 0,
                        summary := "ok" },
          saveFails := true }
        (some "s")
        { objectKind := "merge_request",
          objectAttributes := { iid := some 1, action := some "open",
                                project_id := some 1,
                                source_project_name := none,
                                author_username := none },
          projectId := some 1 }
        100 { cache := fun _ => 0, reviews := [] }).1 = .successReview 9 0 ∧
    (gitlab_webhook
        { webhookSecret := some "s", autoLabel := true, dbInit := true }
        { changes := [{ diff := "+x" }], mrLabels := [],
          analysis := { score := 9, issues := [], critical_count := 0,
                        medium_count := 0, low_count := 0, lines_changed := 0,
                        summary := "ok" },
          saveFails := true }
        (some "s")
        { objectKind := "merge_request",
          objectAttributes := { iid := some 1, action := some "open",
                                project_id := some 1,
                                source_project_name := none,
                                author_username := none },
          projectId := some 1 }
        100 { cache := fun _ => 0, reviews := [] }).2.1.reviews = [] := by
  have h := save_failure_swallowed
    { webhookSecret := some "s", autoLabel := true, dbInit := true }
    { changes := [{ diff := "+x" }], mrLabels := [],
      analysis := { score := 9, issues := [], critical_count := 0,
                    medium_count := 0, low_count := 0, lines_changed := 0,
                    summary := "ok" },
      saveFails := true }
    { objectKind := "merge_request",
      objectAttributes := { iid := some 1, action := some "open",
                            project_id := some 1,
                            source_project_name := none,
                            author_username := none },
      projectId := some 1 }
    100 { cache := fun _ => 0, reviews := [] } rfl rfl
    (by norm_num [DUPLICATE_THRESHOLD]) (by decide)
  exact ⟨h.2.1, h.2.2⟩

/-- C9: either endpoint raises 401 exactly when the `X-Gitlab-Token` header
value differs from the configured secret; in particular with no configured
secret and no token header the comparison `None != None` is false and the
request is treated as authenticated. -/
theorem auth_401_iff (cfg : Config) (env : Env) (token : Option String)
    (payload : Payload) (t : ℚ) (st : ServerState) (reactions : List String)
    (np : NotePayload) (procSet : List String) (fbs : List Feedback) :
    ((gitlab_webhook cfg env token payload t st).1 = .unauthorized ↔
      token ≠ cfg.webhookSecret) ∧
    ((gitlab_note_webhook cfg reactions token np procSet fbs).1 = .unauthorized ↔
      token ≠ cfg.webhookSecret) ∧
    (cfg.webhookSecret = none → token = none →
      (gitlab_webhook cfg env token payload t st).1 ≠ .unauthorized) := by
  have h1 : (gitlab_webhook cfg env token payload t st).1 = .unauthorized ↔
      token ≠ cfg.webhookSecret := by
    constructor
    · intro hresp
      intro heq
      revert hresp
      unfold gitlab_webhook
      rw [if_neg (fun h => h heq)]
      by_cases hk : payload.objectKind = "merge_request" <;>
      by_cases ha : actionAllowed payload.objectAttributes.action <;>
      by_cases hg : t - st.cache (payload.projectId, payload.objectAttributes.iid) <
        DUPLICATE_THRESHOLD <;>
      by_cases hc : env.changes.isEmpty <;>
      by_cases hl : cfg.autoLabel <;>
      simp [hk, ha, hg, hc, hl]
    · intro hne
      unfold gitlab_webhook
      rw [if_pos hne]
  have h2 : (gitlab_note_webhook cfg reactions token np procSet fbs).1 =
      .unauthorized ↔ token ≠ cfg.webhookSecret := by
    constructor
    · intro hresp
      intro heq
      revert hresp
      unfold gitlab_note_webhook
      rw [if_neg (fun h => h heq)]
      by_cases hk : np.objectKind = "note" <;>
      cases hmr : np.mrData <;>
      by_cases hre : reactions.isEmpty <;>
      by_cases hai : isAiNoteComment np.noteBody <;>
      simp [hk, hmr, hre, hai] <;>
      split <;> simp
    · intro hne
      unfold gitlab_note_webhook
      rw [if_pos hne]
  refine ⟨h1, h2, fun hs ht hresp => ?_⟩
  have := h1.mp hresp
  exact this (ht.trans hs.symm)

/-- The feedback records one invocation of the note webhook appends
(`main.py` lines 259-291): the negative one when a thumbs-down reaction is
observed, followed by the positive one when a thumbs-up reaction is
observed. -/
def noteNewFeedbacks (reactions : List String) (p : NotePayload) (mrd : NoteMRData) :
    List Feedback :=
  (if reactions.contains "thumbsdown" || reactions.contains "-1"
    then [noteNegFeedback p mrd] else []) ++
  (if reactions.contains "thumbsup" || reactions.contains "+1"
    then [notePosFeedback p mrd] else [])

/-- C10: the note webhook path performs no de-duplication.  For any state of
the poller's processed-reaction set and any existing feedback store — in
particular one already holding a feedback for the same
(comment, reaction-kind) pair — an invocation observing a thumbs-up or
thumbs-down reaction (alone or together) on an AI-marked MR comment appends a
fresh feedback record per observed reaction kind, and the processed-reaction
set is returned exactly as given (neither consulted nor updated).  In
particular the stored count for the key of each observed kind strictly
increases, whatever it already was. -/
theorem note_webhook_no_dedup (cfg : Config) (reactions : List String)
    (p : NotePayload) (procSet : List String) (fbs : List Feedback)
    (mrd : NoteMRData)
    (hkind : p.objectKind = "note") (hmr : p.mrData = some mrd)
    (hai : isAiNoteComment p.noteBody = true)
    (hthumbs : (reactions.contains "thumbsdown" || reactions.contains "-1" ||
      reactions.contains "thumbsup" || reactions.contains "+1") = true) :
    gitlab_note_webhook cfg reactions cfg.webhookSecret p procSet fbs =
      (.successFeedback, procSet, fbs ++ noteNewFeedbacks reactions p mrd, true) ∧
    ((reactions.contains "thumbsdown" || reactions.contains "-1") = true →
      countKey fbs (fbKey (noteNegFeedback p mrd)) + 1 ≤
        countKey (fbs ++ noteNewFeedbacks reactions p mrd)
          (fbKey (noteNegFeedback p mrd))) ∧
    ((reactions.contains "thumbsup" || reactions.contains "+1") = true →
      countKey fbs (fbKey (notePosFeedback p mrd)) + 1 ≤
        countKey (fbs ++ noteNewFeedbacks reactions p mrd)
          (fbKey (notePosFeedback p mrd))) := by
  have hne : reactions.isEmpty = false := by
    cases reactions with
    | nil => simp at hthumbs
    | cons a l => rfl
  refine ⟨?_, ?_, ?_⟩
  · unfold gitlab_note_webhook noteNewFeedbacks
    by_cases hd : "thumbsdown" ∈ reactions ∨ "-1" ∈ reactions <;>
    by_cases hu : "thumbsup" ∈ reactions ∨ "+1" ∈ reactions <;>
    simp_all [add_feedback]
  · intro hdown
    have hd' : "thumbsdown" ∈ reactions ∨ "-1" ∈ reactions := by simpa using hdown
    have hmem : noteNegFeedback p mrd ∈ noteNewFeedbacks reactions p mrd := by
      simp [noteNewFeedbacks]
      exact Or.inl hd'
    have hpos : 0 < countKey (noteNewFeedbacks reactions p mrd)
        (fbKey (noteNegFeedback p mrd)) := by
      rw [countKey]
      exact List.countP_pos_iff.mpr ⟨noteNegFeedback p mrd, hmem, by simp⟩
    have happ : countKey (fbs ++ noteNewFeedbacks reactions p mrd)
        (fbKey (noteNegFeedback p mrd)) =
        countKey fbs (fbKey (noteNegFeedback p mrd)) +
          countKey (noteNewFeedbacks reactions p mrd)
            (fbKey (noteNegFeedback p mrd)) := by
      simp [countKey, List.countP_append]
    rw [happ]
    exact Nat.add_le_add_left hpos _
  · intro hup
    have hu' : "thumbsup" ∈ reactions ∨ "+1" ∈ reactions := by simpa using hup
    have hmem : notePosFeedback p mrd ∈ noteNewFeedbacks reactions p mrd := by
      simp [noteNewFeedbacks]
      exact Or.inr hu'
    have hpos : 0 < countKey (noteNewFeedbacks reactions p mrd)
        (fbKey (notePosFeedback p mrd)) := by
      rw [countKey]
      exact List.countP_pos_iff.mpr ⟨notePosFeedback p mrd, hmem, by simp⟩
    have happ : countKey (fbs ++ noteNewFeedbacks reactions p mrd)
        (fbKey (notePosFeedback p mrd)) =
        countKey fbs (fbKey (notePosFeedback p mrd)) +
          countKey (noteNewFeedbacks reactions p mrd)
            (fbKey (notePosFeedback p mrd)) := by
      simp [countKey, List.countP_append]
    rw [happ]
    exact Nat.add_le_add_left hpos _

/-- Witness for `note_webhook_no_dedup`: an invocation observing both a
thumbs-down and a thumbs-up on an AI comment, against a store that already
holds a feedback with the very same (comment, thumbs-down) key, appends both
feedback records, hands the processed-reaction set back unchanged, and
strictly increases the stored count for the thumbs-down key. -/
theorem note_webhook_no_dedup_witness :
    (gitlab_note_webhook
      { webhookSecret := some "s", autoLabel := true, dbInit := true }
      ["thumbsdown", "thumbsup"] (some "s")
      { objectKind := "note", noteId := some 7, noteBody := "AI Review: ok",
        userName := some "U", mrData := some { iid := some 2 },
        projectId := some 1 }
      ["7:thumbsdown"]
      [noteNegFeedback
        { objectKind := "note", noteId := some 7, noteBody := "AI Review: ok",
          userName := some "U", mrData := some { iid := some 2 },
          projectId := some 1 } { iid := some 2 }] =
      (.successFeedback, ["7:thumbsdown"],
        [noteNegFeedback
          { objectKind := "note", noteId := some 7, noteBody := "AI Review: ok",
            userName := some "U", mrData := some { iid := some 2 },
            projectId := some 1 } { iid := some 2 }] ++
          noteNewFeedbacks ["thumbsdown", "thumbsup"]
            { objectKind := "note", noteId := some 7, noteBody := "AI Review: ok",
              userName := some "U", mrData := some { iid := some 2 },
              projectId := some 1 } { iid := some 2 }, true)) ∧
    countKey
        [noteNegFeedback
          { objectKind := "note", noteId := some 7, noteBody := "AI Review: ok",
            userName := some "U", mrData := some { iid := some 2 },
            projectId := some 1 } { iid := some 2 }]
        (fbKey (noteNegFeedback
          { objectKind := "note", noteId := some 7, noteBody := "AI Review: ok",
            userName := some "U", mrData := some { iid := some 2 },
            projectId := some 1 } { iid := some 2 })) + 1 ≤
      countKey
        ([noteNegFeedback
          { objectKind := "note", noteId := some 7, noteBody := "AI Review: ok",
            userName := some "U", mrData := some { iid := some 2 },
            projectId := some 1 } { iid := some 2 }] ++
          noteNewFeedbacks ["thumbsdown", "thumbsup"]
            { objectKind := "note", noteId := some 7, noteBody := "AI Review: ok",
              userName := some "U", mrData := some { iid := some 2 },
              projectId := some 1 } { iid := some 2 })
        (fbKey (noteNegFeedback
          { objectKind := "note", noteId := some 7, noteBody := "AI Review: ok",
            userName := some "U", mrData := some { iid := some 2 },
            projectId := some 1 } { iid := some 2 })) :=
  ⟨(note_webhook_no_dedup
      { webhookSecret := some "s", autoLabel := true, dbInit := true }
      ["thumbsdown", "thumbsup"]
      { objectKind := "note", noteId := some 7, noteBody := "AI Review: ok",
        userName := some "U", mrData := some { iid := some 2 },
        projectId := some 1 }
      ["7:thumbsdown"]
      [noteNegFeedback
        { objectKind := "note", noteId := some 7, noteBody := "AI Review: ok",
          userName := some "U", mrData := some { iid := some 2 },
          projectId := some 1 } { iid := some 2 }]
      { iid := some 2 } rfl rfl (by decide) (by decide)).1,
   (note_webhook_no_dedup
      { webhookSecret := some "s", autoLabel := true, dbInit := true }
      ["thumbsdown", "thumbsup"]
      { objectKind := "note", noteId := some 7, noteBody := "AI Review: ok",
        userName := some "U", mrData := some { iid := some 2 },
        projectId := some 1 }
      ["7:thumbsdown"]
      [noteNegFeedback
        { objectKind := "note", noteId := some 7, noteBody := "AI Review: ok",
          userName := some "U", mrData := some { iid := some 2 },
          projectId := some 1 } { iid := some 2 }]
      { iid := some 2 } rfl rfl (by decide) (by decide)).2.1 (by decide)⟩

/-! ### C6: at-most-once feedback emission in the reaction poller -/

/-- Evolution invariant of the poller state with respect to one
"note-id:reaction-kind" key `k`: the processed set only grows; the number of
stored feedbacks for `k` never decreases, grows by at most one, stays fixed
once `k` is processed, and changes exactly together with `k` entering the
processed set. -/
def PollEvolves (k : String) (a b : PollerState) : Prop :=
  (k ∈ a.processed → k ∈ b.processed) ∧
  countKey a.feedbacks k ≤ countKey b.feedbacks k ∧
  (k ∈ a.processed → countKey b.feedbacks k = countKey a.feedbacks k) ∧
  countKey b.feedbacks k ≤ countKey a.feedbacks k + 1 ∧
  (countKey a.feedbacks k < countKey b.feedbacks k → k ∈ b.processed) ∧
  (k ∈ b.processed → k ∈ a.processed ∨ countKey a.feedbacks k < countKey b.feedbacks k)

lemma pollEvolves_refl (k : String) (a : PollerState) : PollEvolves k a a :=
  ⟨fun h => h, le_rfl, fun _ => rfl, Nat.le_succ _,
   fun h => absurd h (lt_irrefl _), fun h => Or.inl h⟩

lemma pollEvolves_trans {k : String} {a b c : PollerState}
    (hab : PollEvolves k a b) (hbc : PollEvolves k b c) : PollEvolves k a c := by
  obtain ⟨m1, cm1, bl1, u1, e1, o1⟩ := hab
  obtain ⟨m2, cm2, bl2, u2, e2, o2⟩ := hbc
  refine ⟨fun h => m2 (m1 h), le_trans cm1 cm2, ?_, ?_, ?_, ?_⟩
  · intro h
    rw [bl2 (m1 h), bl1 h]
  · by_cases hstrict : countKey a.feedbacks k < countKey b.feedbacks k
    · rw [bl2 (e1 hstrict)]
      exact u1
    · have heq : countKey b.feedbacks k = countKey a.feedbacks k :=
        le_antisymm (not_lt.mp hstrict) cm1
      calc countKey c.feedbacks k ≤ countKey b.feedbacks k + 1 := u2
        _ = countKey a.feedbacks k + 1 := by rw [heq]
  · intro hac
    by_cases hbc2 : countKey b.feedbacks k < countKey c.feedbacks k
    · exact e2 hbc2
    · have : countKey a.feedbacks k < countKey b.feedbacks k :=
        lt_of_lt_of_le hac (not_lt.mp hbc2)
      exact m2 (e1 this)
  · intro hc
    rcases o2 hc with hb | hlt
    · rcases o1 hb with ha | hlt1
      · exact Or.inl ha
      · exact Or.inr (lt_of_lt_of_le hlt1 cm2)
    · exact Or.inr (lt_of_le_of_lt cm1 hlt)

lemma countKey_append_singleton (fs : List Feedback) (f : Feedback) (k : String) :
    countKey (fs ++ [f]) k = countKey fs k + (if fbKey f = k then 1 else 0) := by
  simp [countKey, List.countP_append, List.countP_cons]

lemma pollEvolves_emitIfNew (cond : Bool) (key : String) (fb : Feedback)
    (st : PollerState) (k : String) (hfb : fbKey fb = key) :
    PollEvolves k st (emitIfNew cond key fb st) := by
  unfold emitIfNew
  cases cond with
  | false => exact pollEvolves_refl k st
  | true =>
    simp only [if_true]
    by_cases hmem : key ∈ st.processed
    · rw [if_pos hmem]
      exact pollEvolves_refl k st
    · rw [if_neg hmem]
      by_cases hk : k = key
      · subst hk
        have hcnt : countKey (add_feedback st.feedbacks fb) k =
            countKey st.feedbacks k + 1 := by
          rw [add_feedback, countKey_append_singleton, if_pos hfb]
        refine ⟨fun h => absurd h hmem, ?_, fun h => absurd h hmem, ?_, ?_, ?_⟩
        · rw [hcnt]; exact Nat.le_succ _
        · rw [hcnt]
        · intro _
          simp
        · intro _
          right
          rw [hcnt]
          exact Nat.lt_succ_self _
      · have hcnt : countKey (add_feedback st.feedbacks fb) k =
            countKey st.feedbacks k := by
          rw [add_feedback, countKey_append_singleton,
            if_neg (fun h => hk (h.symm.trans hfb)), Nat.add_zero]
        have hmem2 : ∀ m : List String, k ∈ m ++ [key] ↔ k ∈ m := by
          intro m
          simp [hk]
        refine ⟨fun h => (hmem2 st.processed).mpr h, ?_, fun _ => hcnt, ?_, ?_, ?_⟩
        · rw [hcnt]
        · rw [hcnt]; exact Nat.le_succ _
        · intro h
          rw [hcnt] at h
          exact absurd h (lt_irrefl _)
        · intro h
          exact Or.inl ((hmem2 st.processed).mp h)

lemma pollEvolves_step (o : NoteObs) (st : PollerState) (k : String) :
    PollEvolves k st (process_note_reactions o st) := by
  unfold process_note_reactions
  by_cases he : o.reactions.isEmpty
  · rw [if_pos he]
    exact pollEvolves_refl k st
  · rw [if_neg he]
    refine pollEvolves_trans
      (pollEvolves_emitIfNew _ _ _ st k ?_)
      (pollEvolves_emitIfNew _ _ _ _ k ?_) <;>
      simp [fbKey, pollNegFeedback, pollPosFeedback, reactKey, String.append_assoc]

lemma pollEvolves_run (obs : List NoteObs) (st : PollerState) (k : String) :
    PollEvolves k st (runPoller obs st) := by
  induction obs generalizing st with
  | nil => exact pollEvolves_refl k st
  | cons o rest ih =>
    exact pollEvolves_trans (pollEvolves_step o st k) (ih (process_note_reactions o st))

/-- C6: across any sequence of polling observations, for any
"note-id:reaction-kind" key: once the key is in the processed-reaction set no
further feedback record for it is ever emitted; at most one feedback record
for the key is emitted over the whole run; and the key enters the set only
together with a feedback emission for it. -/
theorem poller_at_most_once (obs : List NoteObs) (st : PollerState) (k : String) :
    (k ∈ st.processed →
      countKey (runPoller obs st).feedbacks k = countKey st.feedbacks k) ∧
    countKey (runPoller obs st).feedbacks k ≤ countKey st.feedbacks k + 1 ∧
    (k ∈ (runPoller obs st).processed →
      k ∈ st.processed ∨
        countKey st.feedbacks k < countKey (runPoller obs st).feedbacks k) :=
  ⟨(pollEvolves_run obs st k).2.2.1, (pollEvolves_run obs st k).2.2.2.1,
   (pollEvolves_run obs st k).2.2.2.2.2⟩

/-- Witness for `poller_at_most_once`: a polling cycle that observes a
thumbs-down already recorded in the processed-reaction set emits no feedback
for that key. -/
theorem poller_at_most_once_witness :
    countKey (runPoller
        [{ noteId := 5, noteBody := "AI Review: x", authorName := "A",
           projectId := some 1, mrIid := some 2, reactions := ["thumbsdown"] }]
        { processed := [reactKey 5 "thumbsdown"], feedbacks := [] }).feedbacks
      (reactKey 5 "thumbsdown") =
    countKey ({ processed := [reactKey 5 "thumbsdown"],
                feedbacks := [] } : PollerState).feedbacks
      (reactKey 5 "thumbsdown") :=
  (poller_at_most_once
    [{ noteId := 5, noteBody := "AI Review: x", authorName := "A",
       projectId := some 1, mrIid := some 2, reactions := ["thumbsdown"] }]
    { processed := [reactKey 5 "thumbsdown"], feedbacks := [] }
    (reactKey 5 "thumbsdown")).1 (List.mem_singleton.mpr rfl)

/-- Witness for `auth_401_iff`: with no configured secret and no token header
the concrete request is not rejected as unauthorized. -/
theorem auth_401_iff_witness :
    (gitlab_webhook
        { webhookSecret := none, autoLabel := true, dbInit := true }
        { changes := [], mrLabels := [],
          analysis := { score := 9, issues := [], critical_count := 0,
                        medium_count := 0, low_count := 0, lines_changed := 0,
                        summary := "ok" },
          saveFails := false }
        none
        { objectKind := "merge_request",
          objectAttributes := { iid := some 1, action := some "open",
                                project_id := some 1,
                                source_project_name := none,
                                author_username := none },
          projectId := some 1 }
        0 { cache := fun _ => 0, reviews := [] }).1 ≠ .unauthorized :=
  (auth_401_iff
    { webhookSecret := none, autoLabel := true, dbInit := true }
    { changes := [], mrLabels := [],
      analysis := { score := 9, issues := [], critical_count := 0,
                    medium_count := 0, low_count := 0, lines_changed := 0,
                    summary := "ok" },
      saveFails := false }
    none
    { objectKind := "merge_request",
      objectAttributes := { iid := some 1, action := some "open",
                            project_id := some 1,
                            source_project_name := none,
                            author_username := none },
      projectId := some 1 }
    0 { cache := fun _ => 0, reviews := [] } ["thumbsup"]
    { objectKind := "note", noteId := some 7, noteBody := "AI Review: ok",
      userName := some "U", mrData := some { iid := some 2 },
      projectId := some 1 }
    [] []).2.2 rfl rfl
